import Mathlib

/-!
# Verification of the FullScreenSlideshow presentation player

Shallow embedding of `Corpfront/src/components/FullScreenSlideshow.tsx`:
the embed-URL normalization helper `normalizeEmbedUrl`, the interval
clamping expression, and the component's state machine (loading / slow
loading / error / ready phases, slide fetch outcome handling, the
auto-advance timer, per-slide image errors and the close affordance).

Pure expressions of the component become Lean functions; the stateful
React behaviour (useState fields mutated by effects, timers and
callbacks) becomes an explicit state type with a labelled step relation.
JavaScript numbers are modelled as rationals extended with NaN and the
two infinities, which is exact for the arithmetic the component performs
(`Number(x) || 5`, `Math.min`, `Math.max`, multiplication by 1000).
-/

/-! ## JavaScript string primitives used by `normalizeEmbedUrl` -/

/-- The character set of JavaScript's `\s` regex class and of
`String.prototype.trim` (WhiteSpace ∪ LineTerminator). -/
def isJsWs (c : Char) : Bool :=
  let n := c.toNat
  n = 32 || n = 9 || n = 10 || n = 11 || n = 12 || n = 13
    || n = 160 || n = 5760 || (8192 ≤ n && n ≤ 8202) || n = 8232 || n = 8233
    || n = 8239 || n = 8287 || n = 12288 || n = 65279

/-- ASCII lower-casing, as performed by the regex `i` flag on the ASCII
literals `<iframe` and `src` appearing in the source patterns. -/
def asciiLower (c : Char) : Char :=
  let n := c.toNat
  if 65 ≤ n && n ≤ 90 then Char.ofNat (n + 32) else c

/-- The regex class `["']`. -/
def isQuoteCh (c : Char) : Bool :=
  c.toNat = 34 || c.toNat = 39

/-- Match a (lower-case) literal case-insensitively at the head of the
input, returning the rest of the input on success. -/
def takeLitCI : List Char → List Char → Option (List Char)
  | [], l => some l
  | _ :: _, [] => none
  | p :: ps, c :: cs => if asciiLower c = p then takeLitCI ps cs else none

/-- Match the regex fragment `src\s*=\s*["']([^"']+)["']` (with the `i`
flag on `src`) at the head of the input, returning the capture group.
`\s*` before a non-whitespace literal and `[^"']+` before a `["']`
literal are deterministic under greedy backtracking because the
repeated class excludes the following literal. -/
def matchSrcEqQuoted (l : List Char) : Option (List Char) :=
  match takeLitCI ['s', 'r', 'c'] l with
  | none => none
  | some l1 =>
    match l1.dropWhile isJsWs with
    | '=' :: l3 =>
      match l3.dropWhile isJsWs with
      | q :: l5 =>
        if isQuoteCh q then
          let cap := l5.takeWhile (fun c => !isQuoteCh c)
          let rest := l5.dropWhile (fun c => !isQuoteCh c)
          match cap, rest with
          | [], _ => none
          | _ :: _, [] => none
          | _ :: _, _ :: _ => some cap
        else none
      | [] => none
    | _ => none

/-- One backtracking attempt for `[^>]*\s` at star-length `k`: the
character at offset `k` must be whitespace and the suffix after it must
match the `src...` fragment. -/
def trySplitAt (l : List Char) (k : Nat) : Option (List Char) :=
  match l.drop k with
  | c :: r => if isJsWs c then matchSrcEqQuoted r else none
  | [] => none

/-- Greedy backtracking for `[^>]*\ssrc\s*=\s*["']([^"']+)["']`: try the
longest star length first, then shorter ones. -/
def iframeTailAux (l : List Char) : Nat → Option (List Char)
  | 0 => trySplitAt l 0
  | k + 1 =>
    match trySplitAt l (k + 1) with
    | some cap => some cap
    | none => iframeTailAux l k

/-- Match the part of the first source pattern following the `<iframe`
literal. The star `[^>]*` can consume at most the maximal run of
non-`>` characters. -/
def tryIframeTail (l : List Char) : Option (List Char) :=
  iframeTailAux l (l.takeWhile (fun c => c ≠ '>')).length

/-- `raw.match(/<iframe[^>]*\ssrc\s*=\s*["']([^"']+)["']/i)`: leftmost
starting position wins; at each position the `<iframe` literal is
matched case-insensitively and the tail greedily. Returns capture 1. -/
def findIframeMatch : List Char → Option (List Char)
  | [] => none
  | c :: t =>
    match takeLitCI ['<', 'i', 'f', 'r', 'a', 'm', 'e'] (c :: t) with
    | some rest =>
      match tryIframeTail rest with
      | some cap => some cap
      | none => findIframeMatch t
    | none => findIframeMatch t

/-- `raw.match(/src\s*=\s*["']([^"']+)["']/i)`: leftmost match of the
fallback pattern. Returns capture 1. -/
def findSrcMatch : List Char → Option (List Char)
  | [] => none
  | c :: t =>
    match matchSrcEqQuoted (c :: t) with
    | some cap => some cap
    | none => findSrcMatch t

/-- `raw.match(re1) || raw.match(re2)` from the source: the iframe
pattern is tried first, the bare `src=` pattern second. The capture
group is nonempty whenever a match exists, so `iframeMatch?.[1]` being
truthy coincides with a match having been found. -/
def extractSrcUrl (raw : String) : Option String :=
  match findIframeMatch raw.toList with
  | some cap => some (String.mk cap)
  | none =>
    match findSrcMatch raw.toList with
    | some cap => some (String.mk cap)
    | none => none

/-- JavaScript `String.prototype.trim` on a character list. -/
def jsTrimList (l : List Char) : List Char :=
  ((l.dropWhile isJsWs).reverse.dropWhile isJsWs).reverse

/-- JavaScript `String.prototype.trim`. -/
def jsTrim (s : String) : String :=
  String.mk (jsTrimList s.toList)

/-- Boolean list-prefix test (JavaScript `String.prototype.startsWith`). -/
def listStarts : List Char → List Char → Bool
  | [], _ => true
  | _ :: _, [] => false
  | p :: ps, c :: cs => p = c && listStarts ps cs

/-- `url.startsWith('http://') || url.startsWith('https://')` from the
source. -/
def isHttpUrl (s : String) : Bool :=
  listStarts "http://".toList s.toList || listStarts "https://".toList s.toList

/-- `normalizeEmbedUrl` from FullScreenSlideshow.tsx:
trim the input; empty input yields the empty string; otherwise extract
a `src` attribute with the two regexes, trim the capture and return it
if it is an absolute http(s) URL; otherwise return the trimmed input
(the `startsWith` guard and the final fallthrough both return `raw`). -/
def normalizeEmbedUrl (input : String) : String :=
  let raw := jsTrim input
  if raw = "" then ""
  else
    match extractSrcUrl raw with
    | some cap =>
      let url := jsTrim cap
      if isHttpUrl url then url
      else if isHttpUrl raw then raw else raw
    | none => if isHttpUrl raw then raw else raw

/-- Spec-side restatement of the amended C3 ordered cases: if a frame
`src` attribute is extracted and its trimmed value is an absolute
http(s) URL, that value is the result; otherwise the trimmed input is
returned (this covers both the already-absolute-URL case and the
pass-through case). To be compared with `normalizeEmbedUrl`. -/
def normalizeSpecCases (s : String) : String :=
  match extractSrcUrl (jsTrim s) with
  | some cap => if isHttpUrl (jsTrim cap) then jsTrim cap else jsTrim s
  | none => jsTrim s

/-! ## JavaScript numbers and the interval clamp -/

/-- A JavaScript number as far as the component's arithmetic is
concerned: `NaN`, the infinities, or a finite value (a rational; the
component only coalesces, compares and scales, which is exact). -/
inductive JsNum where
  | nan
  | posInf
  | negInf
  | fin (q : ℚ)
  deriving DecidableEq

/-- The value supplied for the `intervalSeconds` prop: absent
(`undefined`), a non-numeric value (whose `Number(...)` conversion is
`NaN`), or a number. -/
inductive PropVal where
  | undef
  | nonNum
  | num (x : JsNum)
  deriving DecidableEq

/-- The value of `Number(intervalSeconds)` after the destructuring
default `intervalSeconds = 5` has been applied: an absent prop becomes
the literal `5`, a non-numeric prop converts to `NaN`, and a numeric
prop converts to itself. -/
def toNumberProp : PropVal → JsNum
  | .undef => .fin 5
  | .nonNum => .nan
  | .num x => x

/-- JavaScript `x || 5`: `NaN` and `0` are falsy, every other number is
truthy. -/
def jsOrDefault5 : JsNum → JsNum
  | .nan => .fin 5
  | .fin q => if q = 0 then .fin 5 else .fin q
  | .posInf => .posInf
  | .negInf => .negInf

/-- JavaScript `Math.min` on two numbers (`NaN` propagates). -/
def jsMin : JsNum → JsNum → JsNum
  | .nan, _ => .nan
  | _, .nan => .nan
  | .negInf, _ => .negInf
  | _, .negInf => .negInf
  | .posInf, b => b
  | a, .posInf => a
  | .fin a, .fin b => .fin (min a b)

/-- JavaScript `Math.max` on two numbers (`NaN` propagates). -/
def jsMax : JsNum → JsNum → JsNum
  | .nan, _ => .nan
  | _, .nan => .nan
  | .posInf, _ => .posInf
  | _, .posInf => .posInf
  | .negInf, b => b
  | a, .negInf => a
  | .fin a, .fin b => .fin (max a b)

/-- `const intervalSec = Math.max(1, Math.min(300, Number(intervalSeconds) || 5))`
from FullScreenSlideshow.tsx. -/
def intervalSecJs (p : PropVal) : JsNum :=
  jsMax (.fin 1) (jsMin (.fin 300) (jsOrDefault5 (toNumberProp p)))

/-- Spec-side restatement of the amended C1 rule: the effective
interval is 5 seconds when the converted prop is `NaN` (non-numeric) or
exactly `0` (falsy, so the `|| 5` default fires); `+Infinity` clamps to
300 and `-Infinity` to 1; every other finite value is clamped to
[1, 300]. To be compared with `intervalSecJs`. -/
def intervalSecAmended (p : PropVal) : ℚ :=
  match toNumberProp p with
  | .nan => 5
  | .fin q => if q = 0 then 5 else max 1 (min 300 q)
  | .posInf => 300
  | .negInf => 1

/-- The clamped interval as a rational (the clamp never yields `NaN` or
an infinity, see `intervalSecJs_spec`). -/
def intervalSecVal (p : PropVal) : ℚ :=
  match intervalSecJs p with
  | .fin q => q
  | _ => 0

/-- `const intervalMs = intervalSec * 1000` from the source. -/
def intervalMsVal (p : PropVal) : ℚ :=
  intervalSecVal p * 1000

/-- `const ms = Math.max(1000, intervalMs)` from the advance effect. -/
def advanceIntervalMs (p : PropVal) : ℚ :=
  max 1000 (intervalMsVal p)

/-- The delay of the `setTimeout` arming the slow-loading hint. -/
def slowHintDelayMs : Nat := 12000

/-- The clamp expression always produces the finite value described by
`intervalSecAmended`, and that value lies in [1, 300]. -/
theorem intervalSecJs_spec (p : PropVal) :
    intervalSecJs p = .fin (intervalSecAmended p)
    ∧ 1 ≤ intervalSecAmended p ∧ intervalSecAmended p ≤ 300 := by
  cases p with
  | undef => refine ⟨by decide, by norm_num [intervalSecAmended, toNumberProp]⟩
  | nonNum => refine ⟨by decide, by norm_num [intervalSecAmended, toNumberProp]⟩
  | num x =>
    cases x with
    | nan => refine ⟨by decide, by norm_num [intervalSecAmended, toNumberProp]⟩
    | posInf => refine ⟨by decide, by norm_num [intervalSecAmended, toNumberProp]⟩
    | negInf => refine ⟨by decide, by norm_num [intervalSecAmended, toNumberProp]⟩
    | fin q =>
      by_cases hq : q = 0
      · subst hq
        refine ⟨by decide, by norm_num [intervalSecAmended, toNumberProp]⟩
      · refine ⟨?_, ?_, ?_⟩
        · simp only [intervalSecJs, intervalSecAmended, toNumberProp, jsOrDefault5,
            if_neg hq, jsMin, jsMax]
        · simp only [intervalSecAmended, toNumberProp, if_neg hq]
          exact le_max_left 1 (min 300 q)
        · simp only [intervalSecAmended, toNumberProp, if_neg hq]
          exact max_le (by norm_num) (min_le_left 300 q)

/-- The clamped rational value agrees with the amended description. -/
theorem intervalSecVal_eq (p : PropVal) :
    intervalSecVal p = intervalSecAmended p := by
  simp only [intervalSecVal, (intervalSecJs_spec p).1]

/-! ## The component state machine -/

/-- The `slideshowType` prop: `'file'` or `'url'` (Embed mode). -/
inductive SlideshowType where
  | file
  | url
  deriving DecidableEq

/-- The component's `useState` fields. -/
structure SlideshowState where
  slides : List String
  currentIndex : Nat
  loading : Bool
  error : Option String
  loadingSlow : Bool
  deriving DecidableEq

/-- The initial `useState` values: `slides = []`, `currentIndex = 0`,
`loading = (slideshowType === 'file')`, `error = null`,
`loadingSlow = false`. -/
def initState (ty : SlideshowType) : SlideshowState :=
  { slides := []
    currentIndex := 0
    loading := match ty with | .file => true | .url => false
    error := none
    loadingSlow := false }

/-- The phases of the File-mode render, in the order the render tests
them: `loading` first (with `loadingSlow` selecting the slow variant),
then `error`, then the empty-slides fallback, then the slide display. -/
inductive Phase where
  | loading
  | slowLoading
  | error
  | noSlides
  | ready
  deriving DecidableEq

/-- JavaScript truthiness of the `error` field (`string | null`):
`null` is falsy, and so is the empty string. -/
def jsTruthy : Option String → Bool
  | none => false
  | some s => if s = "" then false else true

/-- The phase the File-mode render branches select for a given state.
The render's `if (error)` is a truthiness test, so an empty-string
error (falsy) does not select the Error panel. -/
def filePhase (st : SlideshowState) : Phase :=
  if st.loading then (if st.loadingSlow then .slowLoading else .loading)
  else if jsTruthy st.error then .error
  else if st.slides.length = 0 then .noSlides
  else .ready

/-- The shape of `response.data.slides`: absent (or falsy), present but
not an array, or an array of slide locators. -/
inductive SlidesField where
  | missing
  | nonArray
  | array (l : List String)
  deriving DecidableEq

/-- How the slide fetch settles: a 2xx response carrying a
`slides` field of some shape, or a rejection carrying the optional
`err.response?.data?.detail` and `err.message` strings. -/
inductive FetchOutcome where
  | success (f : SlidesField)
  | failure (detail : Option String) (message : Option String)
  deriving DecidableEq

/-- The message set by `loadSlides` when the response has no usable
slide list. -/
def noSlidesMsg : String :=
  "No slides found. Backend may need LibreOffice (PPT) or pymupdf (PDF). Check server logs."

/-- The final fallback message of the `catch` branch. -/
def genericFailMsg : String :=
  "Request failed. Is the backend running? (Check terminal and try http://localhost:8000)"

/-- The message set by the slide image's `onError` handler. -/
def imgErrorMsg : String := "Failed to load slide image"

/-- The message set by the Embed-mode frame's `onError` handler. -/
def embedErrorMsg : String := "Failed to load embed URL"

/-- The state updates `loadSlides` performs once the fetch settles:
on a truthy array field with positive length, set the slides, reset the
index to 0 and stop loading; on any other response shape set the
no-slides error; on rejection set
`err.response?.data?.detail ?? err.message ?? <generic hint>`. -/
def applyFetchOutcome (st : SlideshowState) (o : FetchOutcome) : SlideshowState :=
  match o with
  | .success f =>
    match f with
    | .array l =>
      if 0 < l.length then
        { st with slides := l, currentIndex := 0, loading := false }
      else
        { st with error := some noSlidesMsg, loading := false }
    | _ => { st with error := some noSlidesMsg, loading := false }
  | .failure detail message =>
    { st with error := some (detail.getD (message.getD genericFailMsg)), loading := false }

/-- One firing of the advance interval:
`setCurrentIndex((prev) => (prev + 1) % slides.length)`. -/
def tickComp (st : SlideshowState) : SlideshowState :=
  { st with currentIndex := (st.currentIndex + 1) % st.slides.length }

/-- The slow-loading `setTimeout` callback: `setLoadingSlow(true)`. -/
def setLoadingSlowTrue (st : SlideshowState) : SlideshowState :=
  { st with loadingSlow := true }

/-- The slide image `onError` callback. -/
def setErrorImg (st : SlideshowState) : SlideshowState :=
  { st with error := some imgErrorMsg }

/-- The embed frame `onError` callback. -/
def setErrorEmbed (st : SlideshowState) : SlideshowState :=
  { st with error := some embedErrorMsg }

/-- Whether the advance effect installs its interval timer: the effect
returns early iff `slides.length <= 1`, with no other condition. -/
def advanceTimerActive (st : SlideshowState) : Bool :=
  if st.slides.length ≤ 1 then false else true

/-- Whether the current render shows a close button, following the
render branches: Embed mode always renders one when `onClose` is
supplied; File mode reaches the close button only in the final
slide-display branch (the loading, error and empty-slides screens
contain none). -/
def rendersCloseButton (ty : SlideshowType) (onClose : Bool) (st : SlideshowState) : Bool :=
  match ty with
  | .url => onClose
  | .file =>
    if st.loading then false
    else if jsTruthy st.error then false
    else if st.slides.length = 0 then false
    else onClose

/-- Whether the current render shows the slide `<img>` element (the
final File-mode branch). -/
def rendersSlideImage (ty : SlideshowType) (st : SlideshowState) : Bool :=
  match ty with
  | .url => false
  | .file =>
    if st.loading then false
    else if jsTruthy st.error then false
    else if st.slides.length = 0 then false
    else true

/-- A mounted player: the component state plus whether the slide fetch
issued by the mount effect is still in flight. -/
structure MState where
  comp : SlideshowState
  fetchPending : Bool
  deriving DecidableEq

/-- The state right after mounting: the `useState` initials, with the
mount effect having started `loadSlides` in File mode (its initial
`setLoading(true); setError(null); setLoadingSlow(false)` leaves the
initial values unchanged) and having only called `setLoading(false)`
(a no-op on the initial value) in Embed mode. -/
def initMState (ty : SlideshowType) : MState :=
  { comp := initState ty
    fetchPending := match ty with | .file => true | .url => false }

/-- The events that can fire against a mounted player. -/
inductive Ev where
  | fetchReturn (o : FetchOutcome)
  | slowTimeout
  | advanceTick
  | imgError
  | embedError
  | closeClick
  deriving DecidableEq

/-- Labelled small-step relation of a mounted player. Guards record
when each callback can run: the fetch settles only while in flight; the
slow-loading one-shot timer is armed only while `loading` is true and
fires at most once per loading episode; the advance interval exists iff
the advance effect installed it; the image and frame error handlers
exist only while the corresponding element is rendered; the close
button calls `onClose` and performs no state change. -/
inductive Step (ty : SlideshowType) (onClose : Bool) : Ev → MState → MState → Prop where
  | fetchReturn {m : MState} (o : FetchOutcome) (h : m.fetchPending = true) :
      Step ty onClose (.fetchReturn o) m ⟨applyFetchOutcome m.comp o, false⟩
  | slowTimeout {m : MState} (h1 : m.comp.loading = true) (h2 : m.comp.loadingSlow = false) :
      Step ty onClose .slowTimeout m ⟨setLoadingSlowTrue m.comp, m.fetchPending⟩
  | advanceTick {m : MState} (h : advanceTimerActive m.comp = true) :
      Step ty onClose .advanceTick m ⟨tickComp m.comp, m.fetchPending⟩
  | imgError {m : MState} (h : rendersSlideImage ty m.comp = true) :
      Step ty onClose .imgError m ⟨setErrorImg m.comp, m.fetchPending⟩
  | embedError {m : MState} (h : ty = .url) :
      Step ty onClose .embedError m ⟨setErrorEmbed m.comp, m.fetchPending⟩
  | closeClick {m : MState} (h : rendersCloseButton ty onClose m.comp = true) :
      Step ty onClose .closeClick m m

/-- States reachable during one mount of the player. -/
def Reachable (ty : SlideshowType) (onClose : Bool) (m : MState) : Prop :=
  Relation.ReflTransGen (fun a b => ∃ e, Step ty onClose e a b) (initMState ty) m

/-! ## Invariant helper lemmas -/

/-- The advance effect's guard decoded. -/
theorem advanceTimerActive_iff (st : SlideshowState) :
    advanceTimerActive st = true ↔ 1 < st.slides.length := by
  unfold advanceTimerActive
  split <;> rename_i hc <;> simp <;> omega

/-- Index invariant: in every reachable state the index is 0 while at
most one slide is loaded, and is a valid position once slides exist. -/
theorem reachable_index_inv (ty : SlideshowType) (oc : Bool) (m : MState)
    (h : Reachable ty oc m) :
    (m.comp.slides.length ≤ 1 → m.comp.currentIndex = 0)
    ∧ (m.comp.slides ≠ [] → m.comp.currentIndex < m.comp.slides.length) := by
  induction h with
  | refl =>
    cases ty <;> simp [initMState, initState]
  | @tail b c hrtg hstep ih =>
    obtain ⟨e, hs⟩ := hstep
    cases hs with
    | fetchReturn o hp =>
      cases o with
      | success f =>
        cases f with
        | array l =>
          by_cases h0 : 0 < l.length
          · exact ⟨fun _ => by simp [applyFetchOutcome, if_pos h0],
              fun _ => by simpa [applyFetchOutcome, if_pos h0] using h0⟩
          · simpa only [applyFetchOutcome, if_neg h0] using ih
        | missing => simpa only [applyFetchOutcome] using ih
        | nonArray => simpa only [applyFetchOutcome] using ih
      | failure d msg => simpa only [applyFetchOutcome] using ih
    | slowTimeout h1 h2 => simpa only [setLoadingSlowTrue] using ih
    | advanceTick hg =>
      have hlen : 1 < b.comp.slides.length := (advanceTimerActive_iff _).mp hg
      constructor
      · intro hle
        exfalso
        simp only [tickComp] at hle
        omega
      · intro _
        simp only [tickComp]
        exact Nat.mod_lt _ (by omega)
    | imgError hg => simpa only [setErrorImg] using ih
    | embedError hg => simpa only [setErrorEmbed] using ih
    | closeClick hg => exact ih

/-- Embed-mode invariant: a `'url'` mount never fetches, never acquires
slides, never moves the index, and never leaves `loading = false`. -/
theorem reachable_url_inv (oc : Bool) (m : MState)
    (h : Reachable .url oc m) :
    m.comp.slides = [] ∧ m.comp.currentIndex = 0
    ∧ m.comp.loading = false ∧ m.fetchPending = false := by
  induction h with
  | refl => simp [initMState, initState]
  | @tail b c hrtg hstep ih =>
    obtain ⟨e, hs⟩ := hstep
    cases hs with
    | fetchReturn o hp => exact absurd hp (by simp [ih.2.2.2])
    | slowTimeout h1 h2 => exact absurd h1 (by simp [ih.2.2.1])
    | advanceTick hg =>
      have hlen : 1 < b.comp.slides.length := (advanceTimerActive_iff _).mp hg
      rw [ih.1] at hlen
      exact absurd hlen (by simp)
    | imgError hg => exact absurd hg (by simp [rendersSlideImage])
    | embedError hg =>
      simpa only [setErrorEmbed] using ih
    | closeClick hg => exact ih

/-- The `rendersSlideImage` guard decoded for File mode. -/
theorem rendersSlideImage_iff (ty : SlideshowType) (st : SlideshowState) :
    rendersSlideImage ty st = true ↔
      ty = .file ∧ st.loading = false ∧ jsTruthy st.error = false
      ∧ st.slides.length ≠ 0 := by
  cases ty with
  | url => simp [rendersSlideImage]
  | file =>
    simp only [rendersSlideImage]
    constructor
    · intro h
      by_cases h1 : st.loading
      · simp [h1] at h
      · by_cases h2 : jsTruthy st.error = true
        · simp [h1, h2] at h
        · by_cases h3 : st.slides.length = 0
          · simp [h1, h2, h3] at h
          · exact ⟨by trivial, by simpa using h1, by simpa using h2, h3⟩
    · rintro ⟨-, h1, h2, h3⟩
      simp [h1, h2, h3]

/-- While the fetch is still in flight, no slides have been delivered:
only a settling fetch writes `slides`, and it clears the pending flag. -/
theorem reachable_pending_slides (ty : SlideshowType) (oc : Bool) (m : MState)
    (h : Reachable ty oc m) :
    m.fetchPending = true → m.comp.slides = [] := by
  induction h with
  | refl => intro _; rfl
  | @tail b c hrtg hstep ih =>
    obtain ⟨e, hs⟩ := hstep
    cases hs with
    | fetchReturn o hp => intro hpend; exact absurd hpend (by simp)
    | slowTimeout h1 h2 => intro hp; simpa only [setLoadingSlowTrue] using ih hp
    | advanceTick hg => intro hp; simpa only [tickComp] using ih hp
    | imgError hg => intro hp; simpa only [setErrorImg] using ih hp
    | embedError hg => intro hp; simpa only [setErrorEmbed] using ih hp
    | closeClick hg => exact ih

/-- The helper equality behind the amended C3/C10 statements: the
normalization returns the trimmed extracted URL when it is absolute
http(s), and the trimmed input otherwise. -/
theorem normalizeEmbedUrl_cases (s : String) :
    normalizeEmbedUrl s = normalizeSpecCases s := by
  unfold normalizeEmbedUrl normalizeSpecCases
  by_cases h : jsTrim s = ""
  · rw [h]
    rfl
  · simp only [if_neg h]
    cases hx : extractSrcUrl (jsTrim s) with
    | none => simp
    | some cap => by_cases hurl : isHttpUrl (jsTrim cap) = true <;> simp [hurl]

/-! ## Claim theorems -/

/-- C1 (counterexample): the claim fails on the code. Input `0` yields
an effective interval of 5 seconds, not the claimed `clamp(0,1,300) = 1`;
input `+Infinity` (not a finite positive number, claimed to yield 5)
yields 300; input `-3` (not a finite positive number, claimed to yield
5) yields 1. -/
theorem C1_cex :
    (intervalSecJs (.num (.fin 0)) = .fin 5 ∧ (5 : ℚ) ≠ 1)
    ∧ (intervalSecJs (.num .posInf) = .fin 300 ∧ (300 : ℚ) ≠ 5)
    ∧ (intervalSecJs (.num (.fin (-3))) = .fin 1 ∧ (1 : ℚ) ≠ 5) := by
  decide

/-- C1 (amended): the effective slide interval equals 5 seconds when
`Number(intervalSeconds)` is `NaN` (non-numeric input) or `0` (both are
falsy, so the `|| 5` default fires) and when the prop is absent;
otherwise it clamps to [1, 300] (with `+Infinity` clamping to 300 and
`-Infinity` to 1); the result always lies in [1, 300]. In particular
input `0` yields 5 seconds, `1000` yields 300, and non-numeric or
undefined input yields 5. -/
theorem C1_interval_clamp :
    (∀ p : PropVal, intervalSecJs p = .fin (intervalSecAmended p)
      ∧ 1 ≤ intervalSecAmended p ∧ intervalSecAmended p ≤ 300)
    ∧ intervalSecJs (.num (.fin 0)) = .fin 5
    ∧ intervalSecJs (.num (.fin 1000)) = .fin 300
    ∧ intervalSecJs .nonNum = .fin 5
    ∧ intervalSecJs .undef = .fin 5 :=
  ⟨intervalSecJs_spec, by decide, by decide, by decide, by decide⟩

/-- C3 (counterexample): the claim's first case fails as stated. The
input contains a frame tag with a `src` attribute whose URL is
`ftp://e.com/a`, yet the result is the whole input, not that URL,
because the extracted value does not start with `http://`/`https://`. -/
theorem C3_cex :
    extractSrcUrl (jsTrim "<iframe src='ftp://e.com/a'></iframe>") = some "ftp://e.com/a"
    ∧ normalizeEmbedUrl "<iframe src='ftp://e.com/a'></iframe>"
        = "<iframe src='ftp://e.com/a'></iframe>"
    ∧ normalizeEmbedUrl "<iframe src='ftp://e.com/a'></iframe>" ≠ "ftp://e.com/a" := by
  decide

/-- C3 (amended): the normalization obeys the ordered cases: if the
string contains a frame tag with a `src` attribute whose trimmed value
is an absolute http(s) URL, that URL is the result (the iframe example
normalizes to exactly `https://example.com/x?y=1`); otherwise the
trimmed input string is returned — in particular an absolute URL input
is returned as-is and `not-a-url-and-no-tag` is returned unchanged. -/
theorem C3_normalize_cases :
    normalizeEmbedUrl "<iframe src=\"https://example.com/x?y=1\"></iframe>"
        = "https://example.com/x?y=1"
    ∧ normalizeEmbedUrl "not-a-url-and-no-tag" = "not-a-url-and-no-tag"
    ∧ ∀ s : String, normalizeEmbedUrl s = normalizeSpecCases s :=
  ⟨by decide, by decide, normalizeEmbedUrl_cases⟩

/-- C10 (counterexample): the parenthetical "the whole input returned
as-is if it starts with http:// or https://" fails: this input starts
with `http://` and contains a non-http `src` attribute, but the result
is the trimmed input, not the input itself (a trailing space is
removed). -/
theorem C10_cex :
    isHttpUrl "http://a.b <iframe src='ftp://c'>x " = true
    ∧ extractSrcUrl (jsTrim "http://a.b <iframe src='ftp://c'>x ") = some "ftp://c"
    ∧ isHttpUrl (jsTrim "ftp://c") = false
    ∧ normalizeEmbedUrl "http://a.b <iframe src='ftp://c'>x "
        ≠ "http://a.b <iframe src='ftp://c'>x " := by
  decide

/-- C10 (amended): a `src` attribute whose extracted (trimmed) value
does not start with `http://` or `https://` is discarded rather than
returned: for every input string from which such a value is extracted,
the result is the whole trimmed input — which equals the input itself
whenever the input has no surrounding whitespace — never the extracted
non-http value. -/
theorem C10_discard_non_http (s u : String)
    (hx : extractSrcUrl (jsTrim s) = some u)
    (hu : isHttpUrl (jsTrim u) = false) :
    normalizeEmbedUrl s = jsTrim s := by
  rw [normalizeEmbedUrl_cases]
  unfold normalizeSpecCases
  rw [hx]
  simp [hu]

/-- Witness for C10: a concrete input with a non-http `src` attribute. -/
theorem C10_discard_non_http_witness :
    extractSrcUrl (jsTrim "<iframe src='ftp://c'>x") = some "ftp://c"
    ∧ isHttpUrl (jsTrim "ftp://c") = false
    ∧ normalizeEmbedUrl "<iframe src='ftp://c'>x" = jsTrim "<iframe src='ftp://c'>x" :=
  ⟨by decide, by decide,
    C10_discard_non_http "<iframe src='ftp://c'>x" "ftp://c" (by decide) (by decide)⟩

/-- C2 (counterexample): the claim fails on the code. After a failed
fetch the player is reachable in the Error phase with `onClose`
supplied, yet the error screen renders no close affordance (only the
Embed-mode render and the final slide-display branch contain the close
button). -/
theorem C2_cex :
    Reachable .file true ⟨⟨[], 0, false, some genericFailMsg, false⟩, false⟩
    ∧ filePhase ⟨[], 0, false, some genericFailMsg, false⟩ = .error
    ∧ rendersCloseButton .file true ⟨[], 0, false, some genericFailMsg, false⟩ = false := by
  refine ⟨?_, by decide, by decide⟩
  exact Relation.ReflTransGen.single
    ⟨.fetchReturn (.failure none none), Step.fetchReturn _ rfl⟩

/-- C2 (amended): when `onClose` is supplied, the close affordance is
rendered in Embed mode always, and in File mode exactly in the Ready
phase (not in Loading, SlowLoading, Error or the empty-slides
fallback); without `onClose` it is never rendered; invoking it calls
`onClose` and changes no component state. -/
theorem C2_close_affordance :
    (∀ st : SlideshowState, rendersCloseButton .file true st = true ↔ filePhase st = .ready)
    ∧ (∀ st : SlideshowState, rendersCloseButton .url true st = true)
    ∧ (∀ (ty : SlideshowType) (st : SlideshowState), rendersCloseButton ty false st = false)
    ∧ (∀ (ty : SlideshowType) (oc : Bool) (m m' : MState),
        Step ty oc .closeClick m m' → m' = m) := by
  refine ⟨?_, fun st => rfl, ?_, ?_⟩
  · intro st
    simp only [rendersCloseButton, filePhase]
    split_ifs <;> simp
  · intro ty st
    cases ty <;> simp [rendersCloseButton]
  · intro ty oc m m' h
    cases h
    rfl

/-- Witness for C2: clicking the Embed-mode close button leaves the
state unchanged. -/
theorem C2_close_affordance_witness :
    rendersCloseButton .url true (initState .url) = true
    ∧ initMState .url = initMState .url :=
  ⟨rfl, C2_close_affordance.2.2.2 .url true (initMState .url) (initMState .url)
    (Step.closeClick rfl)⟩

/-- C4: a successful load establishes `currentIndex = 0` with the
fetched slides; a timer tick maps index `i` to `(i + 1) % n` and
preserves `currentIndex < |SlideSet|`; and in every reachable state of
a File-mode mount the index is a valid position once slides exist. -/
theorem C4_index_invariant :
    (∀ (st : SlideshowState) (l : List String), l ≠ [] →
      (applyFetchOutcome st (.success (.array l))).currentIndex = 0
      ∧ (applyFetchOutcome st (.success (.array l))).slides = l)
    ∧ (∀ st : SlideshowState,
      (tickComp st).currentIndex = (st.currentIndex + 1) % st.slides.length
      ∧ (st.currentIndex < st.slides.length →
          (tickComp st).currentIndex < st.slides.length))
    ∧ (∀ (oc : Bool) (m : MState), Reachable .file oc m → m.comp.slides ≠ [] →
      m.comp.currentIndex < m.comp.slides.length) := by
  refine ⟨?_, ?_, fun oc m h => (reachable_index_inv .file oc m h).2⟩
  · intro st l hl
    have h0 : 0 < l.length := List.length_pos.mpr hl
    exact ⟨by simp [applyFetchOutcome, if_pos h0], by simp [applyFetchOutcome, if_pos h0]⟩
  · intro st
    refine ⟨rfl, fun h => ?_⟩
    simp only [tickComp]
    exact Nat.mod_lt _ (by omega)

/-- Witness for C4, with the spec's example shape `n = 3, i = 2`. -/
theorem C4_index_invariant_witness :
    (applyFetchOutcome (initState .file) (.success (.array ["a", "b", "c"]))).currentIndex = 0
    ∧ (tickComp (⟨["a", "b", "c"], 2, false, none, false⟩ : SlideshowState)).currentIndex
        < (⟨["a", "b", "c"], 2, false, none, false⟩ : SlideshowState).slides.length
    ∧ (⟨⟨["x", "y"], 0, false, none, false⟩, false⟩ : MState).comp.currentIndex
        < (⟨⟨["x", "y"], 0, false, none, false⟩, false⟩ : MState).comp.slides.length := by
  refine ⟨(C4_index_invariant.1 (initState .file) ["a", "b", "c"] (by decide)).1,
    (C4_index_invariant.2.1 _).2 (by decide), ?_⟩
  refine C4_index_invariant.2.2 true _ ?_ (by decide)
  exact Relation.ReflTransGen.single
    ⟨.fetchReturn (.success (.array ["x", "y"])), Step.fetchReturn _ rfl⟩

/-- C5 (counterexample): the claim fails on the code for a
server-supplied detail field equal to the empty string. The catch
branch stores it verbatim (`""` is not nullish, so `??` keeps it), but
the render's `if (error)` truthiness test treats `""` as falsy, so the
player shows the empty-slides fallback screen, not the Error panel. -/
theorem C5_cex :
    Reachable .file true ⟨⟨[], 0, false, some "", false⟩, false⟩
    ∧ (applyFetchOutcome (initState .file) (.failure (some "") none)).error = some ""
    ∧ filePhase ⟨[], 0, false, some "", false⟩ = .noSlides
    ∧ Phase.noSlides ≠ Phase.error := by
  refine ⟨?_, rfl, by decide, by decide⟩
  exact Relation.ReflTransGen.single
    ⟨.fetchReturn (.failure (some "") none), Step.fetchReturn _ rfl⟩

/-- C5 (amended): every empty, malformed or failed fetch outcome
captures a message chosen as server `detail` field when present, else
the transport error message, else the generic "is the backend running"
hint, and lands in the Error phase whenever that captured message is
non-empty; never in Ready (a falsy empty-string captured message
instead falls through to the empty-slides fallback screen). The
`{ slides: [] }` response produces the message naming the likely
missing backend dependencies (LibreOffice / pymupdf). -/
theorem C5_fetch_error_messages :
    (∀ st : SlideshowState,
      (applyFetchOutcome st (.success (.array []))).error = some noSlidesMsg
      ∧ filePhase (applyFetchOutcome st (.success (.array []))) = .error)
    ∧ (∀ st : SlideshowState,
      (applyFetchOutcome st (.success .missing)).error = some noSlidesMsg
      ∧ filePhase (applyFetchOutcome st (.success .missing)) = .error)
    ∧ (∀ st : SlideshowState,
      (applyFetchOutcome st (.success .nonArray)).error = some noSlidesMsg
      ∧ filePhase (applyFetchOutcome st (.success .nonArray)) = .error)
    ∧ (∀ (st : SlideshowState) (d : String) (msg : Option String),
      (applyFetchOutcome st (.failure (some d) msg)).error = some d)
    ∧ (∀ (st : SlideshowState) (msg : String),
      (applyFetchOutcome st (.failure none (some msg))).error = some msg)
    ∧ (∀ st : SlideshowState,
      (applyFetchOutcome st (.failure none none)).error = some genericFailMsg)
    ∧ (∀ (st : SlideshowState) (d : String) (msg : Option String), d ≠ "" →
      filePhase (applyFetchOutcome st (.failure (some d) msg)) = .error)
    ∧ (∀ (st : SlideshowState) (msg : String), msg ≠ "" →
      filePhase (applyFetchOutcome st (.failure none (some msg))) = .error)
    ∧ (∀ st : SlideshowState,
      filePhase (applyFetchOutcome st (.failure none none)) = .error)
    ∧ (∀ (oc : Bool) (m : MState) (d msg : Option String),
      Reachable .file oc m → m.fetchPending = true →
      filePhase (applyFetchOutcome m.comp (.failure d msg)) ≠ .ready)
    ∧ List.IsInfix "LibreOffice".toList noSlidesMsg.toList
    ∧ List.IsInfix "pymupdf".toList noSlidesMsg.toList := by
  refine ⟨fun st => ⟨rfl, rfl⟩, fun st => ⟨rfl, rfl⟩, fun st => ⟨rfl, rfl⟩,
    fun st d msg => rfl, fun st msg => rfl, fun st => rfl,
    ?_, ?_, fun st => rfl, ?_, by decide, by decide⟩
  · intro st d msg hd
    simp [applyFetchOutcome, filePhase, jsTruthy, hd]
  · intro st msg hm
    simp [applyFetchOutcome, filePhase, jsTruthy, hm]
  · intro oc m d msg h hp
    have hs : m.comp.slides = [] := reachable_pending_slides .file oc m h hp
    simp only [applyFetchOutcome, filePhase]
    by_cases hjt : jsTruthy (some (d.getD (msg.getD genericFailMsg))) = true
    · simp [hjt, hs]
    · simp [hjt, hs]

/-- Witness for C5: a non-empty detail and a non-empty transport
message land in the Error phase, and a failure settling against the
freshly mounted (fetch-pending) state is not Ready. -/
theorem C5_fetch_error_messages_witness :
    filePhase (applyFetchOutcome (initState .file) (.failure (some "boom") none)) = .error
    ∧ filePhase (applyFetchOutcome (initState .file) (.failure none (some "net down"))) = .error
    ∧ filePhase (applyFetchOutcome (initMState .file).comp (.failure (some "") none)) ≠ .ready :=
  ⟨C5_fetch_error_messages.2.2.2.2.2.2.1 (initState .file) "boom" none (by decide),
    C5_fetch_error_messages.2.2.2.2.2.2.2.1 (initState .file) "net down" (by decide),
    C5_fetch_error_messages.2.2.2.2.2.2.2.2.2.1 true (initMState .file) (some "") none
      Relation.ReflTransGen.refl rfl⟩

/-- C6: the slow-loading hint timer is armed with a 12000 ms delay;
while the fetch is unsettled (phase Loading, hint not yet shown) its
firing moves the player to SlowLoading without touching the in-flight
fetch; it can fire at most once, since firing requires `loadingSlow`
to be false, makes it true, and no event ever resets it within a
mount; and a success arriving afterwards still transitions directly to
Ready in a single step. -/
theorem C6_slow_loading :
    slowHintDelayMs = 12000
    ∧ (∀ (ty : SlideshowType) (oc : Bool) (m : MState),
        m.comp.loading = true → m.comp.loadingSlow = false →
        Step ty oc .slowTimeout m ⟨setLoadingSlowTrue m.comp, m.fetchPending⟩
        ∧ filePhase m.comp = .loading
        ∧ filePhase (setLoadingSlowTrue m.comp) = .slowLoading)
    ∧ (∀ (ty : SlideshowType) (oc : Bool) (m m' : MState),
        Step ty oc .slowTimeout m m' →
        m.comp.loadingSlow = false ∧ m'.comp.loadingSlow = true
        ∧ m'.fetchPending = m.fetchPending)
    ∧ (∀ (ty : SlideshowType) (oc : Bool) (e : Ev) (m m' : MState),
        Step ty oc e m m' →
        m.comp.loadingSlow = true → m'.comp.loadingSlow = true)
    ∧ (∀ (st : SlideshowState) (l : List String),
        st.error = none → l ≠ [] →
        filePhase (applyFetchOutcome st (.success (.array l))) = .ready) := by
  refine ⟨rfl, ?_, ?_, ?_, ?_⟩
  · intro ty oc m h1 h2
    exact ⟨Step.slowTimeout h1 h2, by simp [filePhase, h1, h2],
      by simp [filePhase, setLoadingSlowTrue, h1]⟩
  · intro ty oc m m' h
    cases h with
    | slowTimeout h1 h2 => exact ⟨h2, rfl, rfl⟩
  · intro ty oc e m m' h hls
    cases h with
    | fetchReturn o hp =>
      cases o with
      | success f =>
        cases f with
        | array l =>
          by_cases h0 : 0 < l.length <;> simp_all [applyFetchOutcome]
        | missing => simpa [applyFetchOutcome] using hls
        | nonArray => simpa [applyFetchOutcome] using hls
      | failure d msg => simpa [applyFetchOutcome] using hls
    | slowTimeout h1 h2 => rfl
    | advanceTick hg => simpa [tickComp] using hls
    | imgError hg => simpa [setErrorImg] using hls
    | embedError hg => simpa [setErrorEmbed] using hls
    | closeClick hg => exact hls
  · intro st l he hl
    have h0 : 0 < l.length := List.length_pos.mpr hl
    have hne : ¬ l.length = 0 := by omega
    simp [applyFetchOutcome, if_pos h0, filePhase, jsTruthy, he, hne, hl]

/-- Witness for C6: the slow-timeout step from the freshly mounted
File-mode state, and a success landing in Ready afterwards. -/
theorem C6_slow_loading_witness :
    (Step .file true .slowTimeout (initMState .file)
        ⟨setLoadingSlowTrue (initState .file), true⟩
      ∧ filePhase (initState .file) = .loading
      ∧ filePhase (setLoadingSlowTrue (initState .file)) = .slowLoading)
    ∧ filePhase (applyFetchOutcome (setLoadingSlowTrue (initState .file))
        (.success (.array ["a"]))) = .ready :=
  ⟨C6_slow_loading.2.1 .file true (initMState .file) rfl rfl,
    C6_slow_loading.2.2.2.2 (setLoadingSlowTrue (initState .file)) ["a"] rfl (by decide)⟩

/-- C7 (counterexample): the advance timer does not run only in the
Ready phase. After loading two slides and then hitting an image render
error, the player is reachable in the Error phase while the advance
effect's guard (`slides.length <= 1` — independent of the error state)
still keeps the interval timer installed. -/
theorem C7_cex :
    Reachable .file true ⟨⟨["a", "b"], 0, false, some imgErrorMsg, false⟩, false⟩
    ∧ filePhase ⟨["a", "b"], 0, false, some imgErrorMsg, false⟩ = .error
    ∧ advanceTimerActive ⟨["a", "b"], 0, false, some imgErrorMsg, false⟩ = true := by
  refine ⟨?_, by decide, by decide⟩
  have s1 : (∃ e, Step .file true e (initMState .file)
      (⟨⟨["a", "b"], 0, false, none, false⟩, false⟩ : MState)) :=
    ⟨.fetchReturn (.success (.array ["a", "b"])), Step.fetchReturn _ rfl⟩
  have s2 : (∃ e, Step .file true e (⟨⟨["a", "b"], 0, false, none, false⟩, false⟩ : MState)
      (⟨⟨["a", "b"], 0, false, some imgErrorMsg, false⟩, false⟩ : MState)) :=
    ⟨.imgError, Step.imgError (by decide)⟩
  exact Relation.ReflTransGen.tail (Relation.ReflTransGen.single s1) s2

/-- C7 (amended): with at most one slide no advance timer is ever
installed and the index stays 0 in every reachable state of the mount;
the advance timer is installed exactly when more than one slide is
loaded (which holds in the Ready phase, but also keeps the timer alive
after a per-slide render error); and it fires every
`max(1000, intervalSec * 1000)` ms, which — since the clamped interval
is at least one second — equals `intervalSec * 1000` and is at least
1000 ms. -/
theorem C7_timer :
    (∀ (ty : SlideshowType) (oc : Bool) (m : MState), Reachable ty oc m →
      m.comp.slides.length ≤ 1 →
      m.comp.currentIndex = 0 ∧ advanceTimerActive m.comp = false)
    ∧ (∀ st : SlideshowState, advanceTimerActive st = true ↔ 1 < st.slides.length)
    ∧ (∀ p : PropVal, advanceIntervalMs p = intervalSecVal p * 1000
        ∧ 1000 ≤ advanceIntervalMs p) := by
  refine ⟨?_, advanceTimerActive_iff, ?_⟩
  · intro ty oc m h hle
    exact ⟨(reachable_index_inv ty oc m h).1 hle, by simp [advanceTimerActive, hle]⟩
  · intro p
    have h1 : 1 ≤ intervalSecVal p := by
      rw [intervalSecVal_eq]
      exact (intervalSecJs_spec p).2.1
    have h2 : (1000 : ℚ) ≤ intervalSecVal p * 1000 := by
      have := mul_le_mul_of_nonneg_right h1 (by norm_num : (0 : ℚ) ≤ 1000)
      simpa using this
    exact ⟨by simpa [advanceIntervalMs, intervalMsVal] using max_eq_right h2,
      le_max_left _ _⟩

/-- Witness for C7: the freshly mounted state has no slides, index 0
and no advance timer. -/
theorem C7_timer_witness :
    (initMState .file).comp.currentIndex = 0
    ∧ advanceTimerActive (initMState .file).comp = false :=
  C7_timer.1 .file true (initMState .file) Relation.ReflTransGen.refl (by decide)

/-- C8: an image render error can only fire from the Ready phase and
moves the whole player to the Error phase, leaving the index and the
slide list untouched — the broken slide is neither advanced past nor
skipped. -/
theorem C8_img_error_fail_stop :
    ∀ (ty : SlideshowType) (oc : Bool) (m m' : MState),
      Step ty oc .imgError m m' →
      filePhase m.comp = .ready
      ∧ filePhase m'.comp = .error
      ∧ m'.comp.currentIndex = m.comp.currentIndex
      ∧ m'.comp.slides = m.comp.slides
      ∧ m'.comp.error = some imgErrorMsg := by
  intro ty oc m m' h
  cases h with
  | imgError hg =>
    obtain ⟨-, h1, h2, h3⟩ := (rendersSlideImage_iff ty m.comp).mp hg
    have ht : jsTruthy (some imgErrorMsg) = true := by decide
    refine ⟨?_, ?_, rfl, rfl, rfl⟩
    · simp [filePhase, h1, h2, h3]
    · simp [filePhase, setErrorImg, h1, ht]

/-- Witness for C8: a concrete image error from a one-slide Ready
state. -/
theorem C8_img_error_fail_stop_witness :
    filePhase (⟨⟨["a"], 0, false, none, false⟩, false⟩ : MState).comp = .ready
    ∧ filePhase (⟨setErrorImg ⟨["a"], 0, false, none, false⟩, false⟩ : MState).comp = .error
    ∧ (⟨setErrorImg ⟨["a"], 0, false, none, false⟩, false⟩ : MState).comp.currentIndex
        = (⟨⟨["a"], 0, false, none, false⟩, false⟩ : MState).comp.currentIndex
    ∧ (⟨setErrorImg ⟨["a"], 0, false, none, false⟩, false⟩ : MState).comp.slides
        = (⟨⟨["a"], 0, false, none, false⟩, false⟩ : MState).comp.slides
    ∧ (⟨setErrorImg ⟨["a"], 0, false, none, false⟩, false⟩ : MState).comp.error
        = some imgErrorMsg :=
  C8_img_error_fail_stop .file true _ _ (Step.imgError (by decide))

/-- C9: over every reachable state of an Embed-mode (`'url'`) mount,
the slide list stays empty, the index stays 0, no fetch is pending
(`loadSlides` was never invoked, so its settling event can never fire)
and the advance timer is never installed. -/
theorem C9_embed_mode :
    (∀ (oc : Bool) (m : MState), Reachable .url oc m →
      m.comp.slides = [] ∧ m.comp.currentIndex = 0
      ∧ m.fetchPending = false ∧ advanceTimerActive m.comp = false)
    ∧ (∀ (oc : Bool) (o : FetchOutcome) (m m' : MState), Reachable .url oc m →
      ¬ Step .url oc (.fetchReturn o) m m') := by
  constructor
  · intro oc m h
    obtain ⟨h1, h2, h3, h4⟩ := reachable_url_inv oc m h
    exact ⟨h1, h2, h4, by simp [advanceTimerActive, h1]⟩
  · intro oc o m m' h hstep
    obtain ⟨-, -, -, h4⟩ := reachable_url_inv oc m h
    cases hstep with
    | fetchReturn o hp => exact absurd hp (by simp [h4])

/-- Witness for C9: the freshly mounted Embed-mode state. -/
theorem C9_embed_mode_witness :
    ((initMState .url).comp.slides = [] ∧ (initMState .url).comp.currentIndex = 0
      ∧ (initMState .url).fetchPending = false
      ∧ advanceTimerActive (initMState .url).comp = false)
    ∧ ¬ Step .url true (.fetchReturn (.success .missing)) (initMState .url) (initMState .url) :=
  ⟨C9_embed_mode.1 true (initMState .url) Relation.ReflTransGen.refl,
    C9_embed_mode.2 true (.success .missing) (initMState .url) (initMState .url)
      Relation.ReflTransGen.refl⟩


